import Mathlib

/-!
Shallow embedding of the i2csense sensor drivers and proofs about them.

The embedding follows the Python sources `i2csense/bh1750.py`,
`i2csense/htu21d.py` and `i2csense/bme280.py`.  Machine words are modelled
as `Nat` (all register values are non-negative and bounded by the
inputs), Python floats as exact rationals, Python `None` as `Option`, and
the injected smbus transport as a deterministic record of read/write
outcomes.  A raised Python exception that is *caught* by the driver is
part of a function's normal result; an exception that would escape a
driver method is an `Except.error` value.
-/

namespace BH1750

/-- The six operation modes of the BH1750 driver (keys of the
`OPERATION_MODES` table in `bh1750.py`). -/
inductive OpMode where
  | continuous_low_res_mode
  | continuous_high_res_mode_1
  | continuous_high_res_mode_2
  | one_time_low_res_mode
  | one_time_high_res_mode_1
  | one_time_high_res_mode_2
deriving DecidableEq

/-- First component of the `OPERATION_MODES` table: the mode register code. -/
def OpMode.code : OpMode → Nat
  | .continuous_low_res_mode => 0x13
  | .continuous_high_res_mode_1 => 0x10
  | .continuous_high_res_mode_2 => 0x11
  | .one_time_low_res_mode => 0x23
  | .one_time_high_res_mode_1 => 0x20
  | .one_time_high_res_mode_2 => 0x21

/-- Second component of the `OPERATION_MODES` table: the
continuous-sampling flag. -/
def OpMode.cont : OpMode → Bool
  | .continuous_low_res_mode => true
  | .continuous_high_res_mode_1 => true
  | .continuous_high_res_mode_2 => true
  | .one_time_low_res_mode => false
  | .one_time_high_res_mode_1 => false
  | .one_time_high_res_mode_2 => false

/-- Deterministic model of the smbus transport as seen by one driver call:
`writeOk v` tells whether `write_byte(addr, v)` succeeds (raises `OSError`
otherwise), `readWord` is the result of `read_word_data` (`none` models a
raised `OSError`). -/
structure Bus where
  writeOk : Nat → Bool
  readWord : Option Nat

/-- Observable transport events, used to express which protocol path an
update takes (the spec's "observable via transport call count/sequence"). -/
inductive Evt where
  | write (v : Nat)
  | read (reg : Option Nat)
  | slept (secs : ℚ)
deriving DecidableEq

/-- The mutable fields of a `BH1750` driver instance.  `opMode`, `cont`,
`highRes`, `lowRes` and `delay` are fixed at construction; `mode` is
`self._mode` (the currently armed register code, `none` models Python
`None`), `light` is `self._light_level`. -/
structure State where
  opMode : Nat
  cont : Bool
  highRes : Bool
  lowRes : Bool
  delay : ℚ
  mtreg : Nat
  mode : Option Nat
  ok : Bool
  light : ℚ
deriving DecidableEq

/-- `BH1750._set_mode`: store the mode, then write it on the bus; a bus
failure is caught and recorded in `self._ok`. -/
def setMode (b : Bus) (m : Nat) (s : State) : State × List Evt :=
  ({ s with mode := some m, ok := b.writeOk m }, [.write m])

/-- `BH1750._power_on`. -/
def powerOn (b : Bus) (s : State) : State × List Evt := setMode b 0x01 s

/-- `BH1750._power_down`. -/
def powerDown (b : Bus) (s : State) : State × List Evt := setMode b 0x00 s

/-- `BH1750._reset`: power on, then write the reset code. -/
def reset (b : Bus) (s : State) : State × List Evt :=
  let p1 := powerOn b s
  let p2 := setMode b 0x07 p1.1
  (p2.1, p1.2 ++ p2.2)

/-- The clamp on the sensitivity argument performed by
`BH1750.set_sensitivity`. -/
def clampSens (sensitivity : ℤ) : Nat :=
  if sensitivity < 31 then 31
  else if 254 < sensitivity then 254
  else sensitivity.toNat

/-- `BH1750.set_sensitivity`: clamp and store `mtreg`, then power on,
write the two measurement-time register halves, and power down. -/
def setSensitivity (b : Bus) (sensitivity : ℤ) (s : State) : State × List Evt :=
  let mt := clampSens sensitivity
  let s0 := { s with mtreg := mt }
  let p1 := powerOn b s0
  let p2 := setMode b (0x40 ||| (mt >>> 5)) p1.1
  let p3 := setMode b (0x60 ||| (mt &&& 0x1f)) p2.1
  let p4 := powerDown b p3.1
  (p4.1, p1.2 ++ p2.2 ++ p3.2 ++ p4.2)

/-- `BH1750._get_result`: read a 16-bit word, byte-swap it and scale it to
lux.  On a bus failure the method returns `-1` and clears `self._ok`.
Returns the value, the new state and the transport events. -/
def getResult (b : Bus) (s : State) : ℚ × State × List Evt :=
  match b.readWord with
  | none => (-1, { s with ok := false }, [.read s.mode])
  | some data =>
    let count := data >>> 8 ||| (data &&& 0xff) <<< 8
    let mode2coeff : ℚ := if s.highRes then 2 else 1
    let ratio : ℚ := 1 / (1.2 * ((s.mtreg : ℚ) / 69.0) * mode2coeff)
    ( ratio * (count : ℚ), { s with ok := true }, [.read s.mode])

/-- The duration slept by `BH1750._wait_for_result`. -/
def waitTime (s : State) : ℚ :=
  (if s.lowRes then 0.018 else 0.128) * ((s.mtreg : ℚ) / 69.0) + s.delay

/-- `BH1750.update`: take the reset/arm/wait path when not in continuous
sampling, or when the stored light level is negative, or when the armed
mode differs from the configured one; then read, and power down again in
one-shot modes. -/
def update (b : Bus) (s : State) : State × List Evt :=
  let p1 :=
    if s.cont = false ∨ s.light < 0 ∨ s.mode ≠ some s.opMode then
      let pa := reset b s
      let pb := setMode b s.opMode pa.1
      (pb.1, pa.2 ++ pb.2 ++ [Evt.slept (waitTime pb.1)])
    else (s, ([] : List Evt))
  let r := getResult b p1.1
  let s3 := { r.2.1 with light := r.1 }
  let p4 := if s3.cont = false then powerDown b s3 else (s3, [])
  (p4.1, p1.2 ++ r.2.2 ++ p4.2)

/-- Round-half-to-even on a rational, the rounding used by Python's
built-in `round` (modelled on exact rationals). -/
def roundHalfEven (x : ℚ) : ℤ :=
  let f := ⌊x⌋
  let r := x - (f : ℚ)
  if r < 1 / 2 then f
  else if 1 / 2 < r then f + 1
  else if Even f then f else f + 1

/-- Python's two-argument `round(x, ndigits)` on exact rationals. -/
def pyRound (x : ℚ) (ndigits : Nat) : ℚ :=
  ((roundHalfEven (x * 10 ^ ndigits) : ℤ) : ℚ) / 10 ^ ndigits

/-- The `BH1750.light_level` accessor: the stored value rounded to one
decimal when `self._high_res` is set, zero decimals otherwise. -/
def lightLevel (s : State) : ℚ :=
  pyRound s.light (if s.highRes then 1 else 0)

/-- The driver state built by `BH1750.__init__` just before its trailing
`self.update()` call: fields from the mode table, power down, program the
sensitivity, and set `self._light_level = -1`. -/
def initPre (b : Bus) (m : OpMode) (measurement_delay : ℚ) (sensitivity : ℤ) : State :=
  let s0 : State :=
    { opMode := m.code, cont := m.cont,
      highRes := m.code &&& 0x03 == 0x01, lowRes := m.code &&& 0x03 == 0x03,
      delay := measurement_delay / 1000, mtreg := 0,
      mode := none, ok := false, light := -1 }
  let p1 := powerDown b s0
  let p2 := setSensitivity b sensitivity p1.1
  { p2.1 with light := -1 }

/-- The lux formula as the specification states it:
`count / (1.2 * (sensitivity/69) * resolution_multiplier)`.  Written from
the spec's words, for comparison against `getResult`. -/
def specLux (sensitivity mult : ℚ) (count : Nat) : ℚ :=
  (count : ℚ) / (1.2 * (sensitivity / 69) * mult)

end BH1750

namespace HTU21D

/-- The loop of `HTU21D._crc8check`, written as a recursion on the number
of remaining iterations.  With `fuel = 16 - i` the call with fuel `n + 1`
tests bit `23 - i = 8 + n` of the remainder and xors in the current
divisor, which starts at `0x988000` and is shifted right once per
iteration exactly as in the source. -/
def crcLoop : Nat → Nat → Nat → Nat
  | 0, remainder, _ => remainder
  | n + 1, remainder, divisor =>
    crcLoop n
      (if remainder &&& (1 <<< (8 + n)) ≠ 0 then remainder ^^^ divisor else remainder)
      (divisor >>> 1)

/-- Assembly of the 24-bit remainder from the 3-byte block in
`HTU21D._crc8check`: `((value[0] << 8) + value[1]) << 8 | value[2]`. -/
def blockValue (value : List Nat) : Nat :=
  (((value.getD 0 0) <<< 8) + value.getD 1 0) <<< 8 ||| value.getD 2 0

/-- `HTU21D._crc8check`: 16 iterations of MSB-first bit-serial division of
the 24-bit block value, with the divisor starting at `0x988000`
(the polynomial `0x0131` shifted to the far left of three bytes); the
block passes when the remainder is zero. -/
def crc8check (value : List Nat) : Bool :=
  crcLoop 16 (blockValue value) 0x988000 == 0

/-- MSB-first bit-serial polynomial division as the specification words
it: for each degree from 23 down to 8, if that bit of the value is set,
subtract (xor) the polynomial `0x0131` aligned at that bit.  Written from
the spec, for comparison against `crc8check`.  With `n + 1` remaining
steps the bit processed is `8 + n`. -/
def specPolyRem : Nat → Nat → Nat
  | 0, v => v
  | n + 1, v =>
    specPolyRem n (if v.testBit (8 + n) then v ^^^ (0x131 <<< n) else v)

/-- Flip bit `k` (0 = least significant bit of the CRC byte, 23 = most
significant bit of the first data byte) of a 3-byte block. -/
def flipBlock (b0 b1 b2 k : Nat) : List Nat :=
  if k < 8 then [b0, b1, b2 ^^^ 2 ^ k]
  else if k < 16 then [b0, b1 ^^^ 2 ^ (k - 8), b2]
  else [b0 ^^^ 2 ^ (k - 16), b1, b2]

/-- `HTU21D._calc_temp`. -/
def calcTemp (sensor_temp : Nat) : ℚ :=
  -46.85 + 175.72 * ((sensor_temp : ℚ) / 65536)

/-- `HTU21D._calc_humid`. -/
def calcHumid (sensor_humid : Nat) : ℚ :=
  -6.0 + 125.0 * ((sensor_humid : ℚ) / 65536)

/-- `HTU21D._temp_coefficient`. -/
def tempCoefficient (rh_actual temp_actual : ℚ) : ℚ :=
  rh_actual - 0.15 * (25 - temp_actual)

/-- The mutable fields of an `HTU21D` driver instance. -/
structure State where
  ok : Bool
  temperature : ℚ
  humidity : ℚ
deriving DecidableEq

/-- `HTU21D.sample_ok`: the validity flag plus the two sentinel
thresholds. -/
def sampleOk (s : State) : Bool :=
  s.ok && decide (s.temperature > -100) && decide (s.humidity > -1)

/-- `HTU21D.update`.  The bus argument is `none` when any of the
write/read transport calls of the cycle raises `OSError` (caught by the
driver), and otherwise carries the two 3-byte blocks returned for
temperature and humidity. -/
def update (s : State) (bus : Option (List Nat × List Nat)) : State :=
  match bus with
  | none => { s with ok := false }
  | some (buf_t, buf_h) =>
    if crc8check buf_t then
      let temp := calcTemp (((buf_t.getD 0 0) <<< 8 ||| buf_t.getD 1 0) &&& 0xFFFC)
      let s1 := { s with temperature := temp }
      if crc8check buf_h then
        let humid := ((buf_h.getD 0 0) <<< 8 ||| buf_h.getD 1 0) &&& 0xFFFC
        let rh_actual := calcHumid humid
        let rh_final0 := tempCoefficient rh_actual s1.temperature
        let rh_final1 := if rh_final0 > 100 then 100.0 else rh_final0
        let rh_final2 := if rh_final1 < 0 then 0.0 else rh_final1
        { s1 with humidity := rh_final2 }
      else { s1 with humidity := -255, ok := false }
    else { s with temperature := -255, ok := false }

end HTU21D

namespace BME280

/-- Deterministic model of the smbus transport used by the BME280 driver:
`writeOk reg v` tells whether `write_byte_data(addr, reg, v)` succeeds,
`readByte reg` is the result of `read_byte_data(addr, reg)` (`none`
models a raised `OSError`). -/
structure Bus where
  writeOk : Nat → Nat → Bool
  readByte : Nat → Option Nat

/-- Python exceptions that can escape or abort `BME280.update`:
`os` is a (caught) `OSError` from the transport, `typeError` is the
`TypeError` raised when indexing a calibration table that is still
`None`, `indexError` when indexing past the end of a populated table,
and `hang` represents the busy-poll of `_take_forced_measurement` never
terminating (the deterministic bus model always returns the same status
byte, so a busy status means the loop spins forever). -/
inductive PyErr where
  | os
  | hang
  | typeError
  | indexError
deriving DecidableEq

/-- The mutable fields of a `BME280` driver instance.  Calibration tables
are `Option` lists (Python `None` until populated), floats are exact
rationals. -/
structure State where
  mode : Nat
  ctrlMeasReg : Nat
  configReg : Nat
  ctrlHumReg : Nat
  deltaTemp : ℚ
  withPressure : Bool
  withHumidity : Bool
  calT : Option (List ℤ)
  calH : Option (List ℤ)
  calP : Option (List ℤ)
  tempFine : Option ℚ
  ok : Bool
  temperature : Option ℚ
  humidity : Option ℚ
  pressure : Option ℚ
deriving DecidableEq

/-- The sign extension applied in `_populate_calibration_data`:
`if v & 0x8000: v = (-v ^ 0xFFFF) + 1`, on Python's arbitrary-precision
two's-complement integers. -/
def signFix (v : ℤ) : ℤ :=
  if Int.land v 0x8000 ≠ 0 then Int.xor (-v) 0xFFFF + 1 else v

/-- The in-place loop `for i in range(lo, hi): l[i] = signFix(l[i])`. -/
def signFixRange (lo hi : Nat) (l : List ℤ) : List ℤ :=
  (List.range' lo (hi - lo)).foldl (fun acc i => acc.set i (signFix (acc.getD i 0))) l

/-- A 16-bit coefficient `(raw_data[hi] << 8) | raw_data[lo]`. -/
def word16 (raw : List Nat) (hi lo : Nat) : Nat :=
  (raw.getD hi 0) <<< 8 ||| raw.getD lo 0

/-- The pure parsing part of `_populate_calibration_data`: assemble the
coefficient lists from the 32 raw calibration bytes and run the three
sign-extension loops (`range(1, 2)` on the temperature table,
`range(1, 8)` on the pressure table, `range(0, 6)` on the humidity
table). -/
def parseCal (raw : List Nat) (withP withH : Bool) :
    List ℤ × List ℤ × List ℤ :=
  let calibration_t : List ℤ :=
    [(word16 raw 1 0 : ℤ), (word16 raw 3 2 : ℤ), (word16 raw 5 4 : ℤ)]
  let calibration_p : List ℤ :=
    if withP then
      [(word16 raw 7 6 : ℤ), (word16 raw 9 8 : ℤ), (word16 raw 11 10 : ℤ),
       (word16 raw 13 12 : ℤ), (word16 raw 15 14 : ℤ), (word16 raw 17 16 : ℤ),
       (word16 raw 19 18 : ℤ), (word16 raw 21 20 : ℤ), (word16 raw 23 22 : ℤ)]
    else []
  let calibration_h : List ℤ :=
    if withH then
      [(raw.getD 24 0 : ℤ), (word16 raw 26 25 : ℤ), (raw.getD 27 0 : ℤ),
       ((raw.getD 28 0 <<< 4 ||| (0x0F &&& raw.getD 29 0) : Nat) : ℤ),
       ((raw.getD 30 0 <<< 4 ||| ((raw.getD 29 0 >>> 4) &&& 0x0F) : Nat) : ℤ),
       (raw.getD 31 0 : ℤ)]
    else []
  let calibration_t := signFixRange 1 2 calibration_t
  let calibration_p := if withP then signFixRange 1 8 calibration_p else calibration_p
  let calibration_h := if withH then signFixRange 0 6 calibration_h else calibration_h
  (calibration_t, calibration_p, calibration_h)

/-- The registers read by `_populate_calibration_data`:
`0x88..0x9F`, `0xA1`, `0xE1..0xE7`. -/
def calRegs : List Nat :=
  ((List.range 24).map (fun i => 0x88 + i)) ++ [0xA1]
    ++ (List.range 7).map (fun i => 0xE1 + i)

/-- The read phase of `_populate_calibration_data`; `none` when any of the
byte reads raises `OSError`. -/
def readCalBytes (b : Bus) : Option (List Nat) :=
  calRegs.mapM b.readByte

/-- `BME280._populate_calibration_data`: a bus failure during the reads is
caught inside the method, which then returns leaving the calibration
tables unchanged; on success the three tables are stored. -/
def populateCal (b : Bus) (s : State) : State :=
  match readCalBytes b with
  | none => s
  | some raw =>
    let c := parseCal raw s.withPressure s.withHumidity
    { s with calT := some c.1, calH := some c.2.2, calP := some c.2.1 }

/-- Look an index up in an optional calibration table, with the Python
failure modes: `TypeError` if the table is `None`, `IndexError` if the
index is out of range. -/
def calGet (l : Option (List ℤ)) (i : Nat) : Except PyErr ℚ :=
  match l with
  | none => .error .typeError
  | some xs =>
    match xs[i]? with
    | none => .error .indexError
    | some v => .ok (v : ℚ)

/-- `BME280._compensate_temperature`: returns the compensated temperature
together with the state holding the updated `self._temp_fine`. -/
def compT (s : State) (adc_t : Nat) : Except PyErr (ℚ × State) := do
  let c0 ← calGet s.calT 0
  let c1 ← calGet s.calT 1
  let c2 ← calGet s.calT 2
  let var_1 := ((adc_t : ℚ) / 16384.0 - c0 / 1024.0) * c1
  let var_2 := ((adc_t : ℚ) / 131072.0 - c0 / 8192.0)
                 * ((adc_t : ℚ) / 131072.0 - c0 / 8192.0) * c2
  let temp_fine := var_1 + var_2
  if s.deltaTemp ≠ 0 then
    let temp := temp_fine / 5120.0 + s.deltaTemp
    return (temp, { s with tempFine := some (temp * 5120.0) })
  else
    return (temp_fine / 5120.0, { s with tempFine := some temp_fine })

/-- `self._temp_fine`, raising `TypeError` when still `None`. -/
def getTempFine (s : State) : Except PyErr ℚ :=
  match s.tempFine with
  | none => .error .typeError
  | some tf => .ok tf

/-- `BME280._compensate_pressure`. -/
def compP (s : State) (adc_p : Nat) : Except PyErr ℚ := do
  let tf ← getTempFine s
  let p0 ← calGet s.calP 0
  let p1 ← calGet s.calP 1
  let p2 ← calGet s.calP 2
  let p3 ← calGet s.calP 3
  let p4 ← calGet s.calP 4
  let p5 ← calGet s.calP 5
  let p6 ← calGet s.calP 6
  let p7 ← calGet s.calP 7
  let p8 ← calGet s.calP 8
  let var_1 := tf / 2.0 - 64000.0
  let var_2 := ((var_1 / 4.0) * (var_1 / 4.0)) / 2048
  let var_2 := var_2 * p5
  let var_2 := var_2 + (var_1 * p4) * 2.0
  let var_2 := var_2 / 4.0 + p3 * 65536.0
  let var_1 := (p2 * (((var_1 / 4.0) * (var_1 / 4.0)) / 8192)) / 8
                 + (p1 * var_1) / 2.0
  let var_1 := var_1 / 262144
  let var_1 := (32768 + var_1) * p0 / 32768
  if var_1 = 0 then
    return 0
  else
    let pressure := ((1048576 - (adc_p : ℚ)) - var_2 / 4096) * 3125
    let pressure :=
      if pressure < 0x80000000 then pressure * 2.0 / var_1
      else pressure / var_1 * 2
    let v1 := (p8 * (((pressure / 8.0) * (pressure / 8.0)) / 8192.0)) / 4096
    let v2 := (pressure / 4.0) * p7 / 8192.0
    let pressure := pressure + (v1 + v2 + p6) / 16.0
    return pressure / 100

/-- `BME280._compensate_humidity`. -/
def compH (s : State) (adc_h : Nat) : Except PyErr ℚ := do
  let tf ← getTempFine s
  let h0 ← calGet s.calH 0
  let h1 ← calGet s.calH 1
  let h2 ← calGet s.calH 2
  let h3 ← calGet s.calH 3
  let h4 ← calGet s.calH 4
  let h5 ← calGet s.calH 5
  let var_h := tf - 76800.0
  if var_h = 0 then
    return 0
  else
    let var_h := ((adc_h : ℚ) - (h3 * 64.0 + h4 / 16384.0 * var_h))
                   * (h1 / 65536.0
                      * (1.0 + h5 / 67108864.0 * var_h
                         * (1.0 + h2 / 67108864.0 * var_h)))
    let var_h := var_h * (1.0 - h0 * var_h / 524288.0)
    if var_h > 100.0 then return 100.0
    else if var_h < 0.0 then return 0.0
    else return var_h

/-- `BME280._take_forced_measurement`: re-arm the measurement control
register, then busy-poll the status register.  The deterministic bus
returns the same status byte on every poll, so the loop either exits
after the first read or never exits; the latter is the `hang` outcome. -/
def takeForced (b : Bus) (s : State) : Except (PyErr × State) State :=
  if b.writeOk 0xF4 s.ctrlMeasReg then
    match b.readByte 0xF3 with
    | none => .error (.os, s)
    | some v => if v &&& 0x08 ≠ 0 then .error (.hang, s) else .ok s
  else .error (.os, s)

/-- The raw measurement read `for i in range(0xF7, 0xF7 + 8)`. -/
def readRaw (b : Bus) : Option (List Nat) :=
  (List.range 8).mapM (fun i => b.readByte (0xF7 + i))

/-- The second half of the `try` block of `BME280.update`:
forced-measurement handling when the configured mode is 2, then the raw
data read `0xF7..0xFE`. -/
def tryTail (b : Bus) (s1 : State) : Except (PyErr × State) (State × List Nat) := do
  let s2 ← if s1.mode = 2 then takeForced b s1 else Except.ok s1
  match readRaw b with
  | none => .error (.os, s2)
  | some data => return (s2, data)

/-- The `try` block of `BME280.update`: configuration writes and
calibration population on a first reading or after a previous failure,
then forced-measurement handling and the raw data read.  An `OSError`
aborts the block, carrying the state as mutated so far. -/
def tryBody (b : Bus) (s : State) (first_reading : Bool) :
    Except (PyErr × State) (State × List Nat) := do
  let s1 ←
    if first_reading || !s.ok then
      if b.writeOk 0xF2 s.ctrlHumReg then
        if b.writeOk 0xF5 s.configReg then
          if b.writeOk 0xF4 s.ctrlMeasReg then
            Except.ok (populateCal b s)
          else .error (.os, s)
        else .error (.os, s)
      else .error (.os, s)
    else Except.ok s
  tryTail b s1

/-- The temperature acceptance step of `BME280.update`:
`if (temperature >= -20) and (temperature < 80)` store it and set the
validity flag. -/
def tempStep (s : State) (t : ℚ) : State :=
  if -20 ≤ t ∧ t < 80 then { s with temperature := some t, ok := true } else s

/-- The humidity acceptance step of `BME280.update`. -/
def humStep (s : State) (h : ℚ) : State :=
  if 0 ≤ h ∧ h ≤ 100 then { s with humidity := some h } else { s with ok := false }

/-- The pressure acceptance step of `BME280.update`. -/
def presStep (s : State) (p : ℚ) : State :=
  if 100 < p then { s with pressure := some p } else { s with ok := false }

/-- The tail of `BME280.update` after the `try` block: assemble the raw
ADC values, clear the validity flag, and run the three compensation and
acceptance steps.  Exceptions raised here (`TypeError` on an unpopulated
calibration table, for instance) are NOT caught by the method. -/
def applyMeasurements (s : State) (data : List Nat) : Except PyErr State := do
  let pres_raw := (data.getD 0 0) <<< 12 ||| (data.getD 1 0) <<< 4 ||| (data.getD 2 0) >>> 4
  let temp_raw := (data.getD 3 0) <<< 12 ||| (data.getD 4 0) <<< 4 ||| (data.getD 5 0) >>> 4
  let hum_raw := (data.getD 6 0) <<< 8 ||| data.getD 7 0
  let s := { s with ok := false }
  let ts ← compT s temp_raw
  let s := tempStep ts.2 ts.1
  let s ← if s.withHumidity then (compH s hum_raw).map (humStep s) else Except.ok s
  if s.withPressure then (compP s pres_raw).map (presStep s) else Except.ok s

/-- `BME280.update`: the `try` block with `OSError` caught and converted
into `ok := false`, followed by the uncaught compensation phase. -/
def update (s : State) (b : Bus) (first_reading : Bool) : Except PyErr State :=
  match tryBody b s first_reading with
  | .error (.os, serr) => .ok { serr with ok := false }
  | .error (e, _) => .error e
  | .ok (s1, data) => applyMeasurements s1 data

end BME280

/-! ## Fixtures used by the claim theorems -/

/-- A bus on which every calibration-register read fails but the
measurement-register reads `0xF7..0xFE` succeed (an intermittent bus). -/
def busC1 : BME280.Bus :=
  { writeOk := fun _ _ => true,
    readByte := fun reg => if 0xF7 ≤ reg ∧ reg ≤ 0xFE then some 0 else none }

/-- A freshly constructed BME280 driver state (normal mode, all
oversampling enabled, no calibration data yet). -/
def s0C1 : BME280.State :=
  { mode := 3, ctrlMeasReg := 0x27, configReg := 0xA0, ctrlHumReg := 1,
    deltaTemp := 0, withPressure := true, withHumidity := true,
    calT := none, calH := none, calP := none, tempFine := none,
    ok := false, temperature := none, humidity := none, pressure := none }

/-- Recognise the escaped-`TypeError` outcome of `BME280.update`. -/
def isTypeError : Except BME280.PyErr BME280.State → Bool
  | .error .typeError => true
  | _ => false

/-- Calibration bytes in which `dig_T2` and `dig_T3` both have raw value
`0x8001`, as does `dig_P9` (bytes 22/23). -/
def rawC2 : List Nat :=
  [0, 0, 0x01, 0x80, 0x01, 0x80, 0, 0, 0, 0, 0, 0, 0, 0, 0, 0,
   0, 0, 0, 0, 0, 0, 0x01, 0x80, 0, 0, 0, 0, 0, 0, 0, 0]

/-- A bus whose measurement read returns raw temperature ADC value
`0x80000` (register `0xFA` holds `0x80`) and zero elsewhere. -/
def busC3 : BME280.Bus :=
  { writeOk := fun _ _ => true,
    readByte := fun reg => if reg = 0xFA then some 0x80 else some 0 }

/-- A BME280 driver state with only the temperature channel enabled and a
calibration table chosen so that the compensated temperature is exactly
-20 (dig_T1 = 0, dig_T2 = -3200, dig_T3 = 0, raw ADC `0x80000`). -/
def s0C3 : BME280.State :=
  { mode := 3, ctrlMeasReg := 0x23, configReg := 0xA0, ctrlHumReg := 0,
    deltaTemp := 0, withPressure := false, withHumidity := false,
    calT := some [0, -3200, 0], calH := some [], calP := some [],
    tempFine := none, ok := true, temperature := none, humidity := none,
    pressure := none }

/-- Project the observables of a completed `BME280.update`. -/
def okTempOf : Except BME280.PyErr BME280.State → Option (Bool × Option ℚ)
  | .ok s => some (s.ok, s.temperature)
  | .error _ => none

/-- A BH1750 bus on which every operation succeeds; reads return `1000`. -/
def busOK : BH1750.Bus := { writeOk := fun _ => true, readWord := some 1000 }

/-- A BH1750 bus on which writes succeed but the word read fails. -/
def busFail : BH1750.Bus := { writeOk := fun _ => true, readWord := none }

/-- A BH1750 bus whose word read returns `1`. -/
def busOK1 : BH1750.Bus := { writeOk := fun _ => true, readWord := some 1 }

/-- The constructed BH1750 driver state for continuous-high-res-mode-1,
delay 120 ms, sensitivity 69, just before the constructor's first
`update()`. -/
def pre0 : BH1750.State :=
  BH1750.initPre busOK .continuous_high_res_mode_1 120 69

/-! ## C1 -/

/-- C1: the claim says every transport error during `update` is caught
inside `update` and that a failed calibration read is detected before the
update proceeds.  In the code, `_populate_calibration_data` swallows the
`OSError` and returns with the tables still `None`; when the subsequent
measurement reads succeed, `_compensate_temperature` indexes the `None`
table and an uncaught `TypeError` escapes from `update`.  This theorem
evaluates the model at that failing input. -/
theorem c1_typeError_escapes_update :
    isTypeError (BME280.update s0C1 busC1 true) = true := by decide

/-! ## C2 -/

/-- C2: the claim says the two's-complement sign extension is applied to
every signed coefficient, including `dig_T3` and `dig_P9`.  The
sign-extension function itself behaves as the claim states
(`0x8001 → -32767`, `0x7FFF → 32767`, `0 → 0`) and is applied to
`dig_T2`, but the loops `range(1, 2)` and `range(1, 8)` skip `dig_T3`
(index 2 of the temperature table) and `dig_P9` (index 8 of the pressure
table): with raw value `0x8001` both parse to `32769`, not `-32767`. -/
theorem c2_signext_skips_T3_P9 :
    BME280.signFix 0x8001 = -32767
    ∧ BME280.signFix 0x7FFF = 32767
    ∧ BME280.signFix 0 = 0
    ∧ (BME280.parseCal rawC2 true true).1.getD 1 0 = -32767
    ∧ (BME280.parseCal rawC2 true true).1.getD 2 0 = 32769
    ∧ (BME280.parseCal rawC2 true true).2.1.getD 8 0 = 32769 := by decide

/-! ## C3 -/

/-- C3 counterexample: the claim states that a compensated temperature of
exactly -20 is invalid.  On a fixture whose compensated temperature is
exactly -20, the code accepts the sample: the update returns with
`sample_ok` true and the temperature stored. -/
theorem c3_minus20_is_accepted :
    okTempOf (BME280.update s0C3 busC3 false) = some (true, some (-20)) := by
  have h1 : BME280.tryBody busC3 s0C3 false = .ok (s0C3, [0, 0, 0, 0x80, 0, 0, 0, 0]) := rfl
  unfold BME280.update
  rw [h1]
  norm_num [BME280.applyMeasurements, BME280.compT, BME280.calGet, BME280.tempStep,
    Bind.bind, Except.bind, pure, Except.pure, Except.map, okTempOf, s0C3, Nat.shiftLeft_eq]

/-- C3 (amended): temperature is accepted exactly when `-20 ≤ T < 80`,
with `T = -20` VALID (the code tests `temperature >= -20`); `-19.999`
valid, `80` invalid, `79.999` valid; an accepted temperature is stored
and sets the validity flag, a rejected one leaves the flag cleared for
the cycle. -/
theorem c3_temperature_gate (s : BME280.State) (t : ℚ) (h : s.ok = false) :
    ((BME280.tempStep s t).ok = true ↔ (-20 ≤ t ∧ t < 80))
    ∧ ((BME280.tempStep s t).ok = true → (BME280.tempStep s t).temperature = some t)
    ∧ (BME280.tempStep s (-20)).ok = true
    ∧ (BME280.tempStep s (-19.999)).ok = true
    ∧ (BME280.tempStep s 80).ok = false
    ∧ (BME280.tempStep s 79.999).ok = true := by
  unfold BME280.tempStep
  refine ⟨?_, ?_, ?_, ?_, ?_, ?_⟩
  · split
    · simp_all
    · simp_all
  · split <;> simp_all
  · norm_num
  · norm_num
  · norm_num [h]
  · norm_num

/-- Witness for `c3_temperature_gate` at a concrete state and `t = 0`. -/
theorem c3_temperature_gate_witness :
    ((BME280.tempStep s0C1 (0 : ℚ)).ok = true ↔ ((-20 : ℚ) ≤ 0 ∧ (0 : ℚ) < 80))
    ∧ ((BME280.tempStep s0C1 (0 : ℚ)).ok = true →
        (BME280.tempStep s0C1 (0 : ℚ)).temperature = some 0)
    ∧ (BME280.tempStep s0C1 (-20)).ok = true
    ∧ (BME280.tempStep s0C1 (-19.999)).ok = true
    ∧ (BME280.tempStep s0C1 80).ok = false
    ∧ (BME280.tempStep s0C1 79.999).ok = true :=
  c3_temperature_gate s0C1 0 rfl

/-! ## C4 and C5 -/

/-- The BH1750 driver state after the constructor's first successful
update on `busOK` (continuous-high-res-mode-1, delay 120 ms, sensitivity
69): armed mode `0x10`, stored light level `59395 / (1.2 * 1) = 296975/6`. -/
def s1lit : BH1750.State :=
  { opMode := 0x10, cont := true, highRes := false, lowRes := false,
    delay := 3/25, mtreg := 69, mode := some 0x10, ok := true, light := 296975/6 }

/-- `s1lit` after an update whose word read failed. -/
def s2lit : BH1750.State := { s1lit with ok := false, light := -1 }

/-- A state with the `continuous_high_res_mode_2` resolution flag. -/
def sWc4 : BH1750.State := { s1lit with highRes := true }

/-- C4 counterexample: the claim says the resolution multiplier is 2 for
each high-resolution submode, modes 1 and 2.  For
`continuous_high_res_mode_1` (register code `0x10`, a high-resolution
submode) with sensitivity 69 and raw word 1, the driver computes the lux
with multiplier 1, not 2: the result disagrees with the claimed formula
at multiplier 2. -/
theorem c4_mode1_multiplier_is_one :
    (BH1750.getResult busOK1 pre0).1 =
      BH1750.specLux 69 1 ((1 : Nat) >>> 8 ||| ((1 : Nat) &&& 0xff) <<< 8)
    ∧ (BH1750.getResult busOK1 pre0).1 ≠
      BH1750.specLux 69 2 ((1 : Nat) >>> 8 ||| ((1 : Nat) &&& 0xff) <<< 8) := by
  constructor <;>
    norm_num [BH1750.getResult, busOK1, pre0, BH1750.initPre, BH1750.powerDown,
      BH1750.powerOn, BH1750.setMode, BH1750.setSensitivity, BH1750.clampSens,
      BH1750.specLux, BH1750.OpMode.code, BH1750.OpMode.cont,
      show Int.toNat 69 = 69 from rfl,
      show ((1 : Nat) >>> 8 ||| 1 <<< 8) = 256 from rfl,
      show ((16 : Nat) &&& 3 = 1) = False from by simp]

/-- C4 (amended): the read word is byte-swapped and the lux value equals
`count / (1.2 * (sensitivity/69) * resolution_multiplier)`, where the
multiplier is 2 exactly for the two 0.5-lx submodes
(`continuous_high_res_mode_2` and `one_time_high_res_mode_2`, the modes
whose register code has low bits `01`) and 1 otherwise — in particular it
is 1 for the mode-1 high-resolution submodes. -/
theorem c4_lux_formula (m : BH1750.OpMode) (s : BH1750.State) (b : BH1750.Bus)
    (w : Nat) (hr : s.highRes = (m.code &&& 0x03 == 0x01))
    (hw : b.readWord = some w) :
    (BH1750.getResult b s).1 =
      BH1750.specLux (s.mtreg : ℚ)
        (if m = .continuous_high_res_mode_2 ∨ m = .one_time_high_res_mode_2 then 2 else 1)
        (w >>> 8 ||| (w &&& 0xff) <<< 8) := by
  cases m <;>
    first
    | (replace hr : s.highRes = false := hr.trans rfl
       simp [BH1750.getResult, hw, BH1750.specLux, hr]
       rcases eq_or_ne (s.mtreg : ℚ) 0 with h0 | h0
       · norm_num [h0]
       · field_simp
         try ring)
    | (replace hr : s.highRes = true := hr.trans rfl
       simp [BH1750.getResult, hw, BH1750.specLux, hr]
       rcases eq_or_ne (s.mtreg : ℚ) 0 with h0 | h0
       · norm_num [h0]
       · field_simp
         try ring)

/-- Witness for `c4_lux_formula` at `continuous_high_res_mode_2`. -/
theorem c4_lux_formula_witness :
    (BH1750.getResult busOK1 sWc4).1 =
      BH1750.specLux (sWc4.mtreg : ℚ)
        (if BH1750.OpMode.continuous_high_res_mode_2 = BH1750.OpMode.continuous_high_res_mode_2
            ∨ BH1750.OpMode.continuous_high_res_mode_2 = BH1750.OpMode.one_time_high_res_mode_2
         then 2 else 1)
        ((1 : Nat) >>> 8 ||| ((1 : Nat) &&& 0xff) <<< 8) :=
  c4_lux_formula .continuous_high_res_mode_2 sWc4 busOK1 1 rfl rfl

/-- C5 counterexample: the claim says `light_level` rounds to one decimal
for any high-resolution mode.  In a `continuous_high_res_mode_1` state
(a high-resolution mode) holding the value 10.6, the accessor rounds to
zero decimals and returns 11, not 10.6. -/
theorem c5_mode1_rounds_to_integer :
    BH1750.lightLevel { s1lit with light := 53/5 } = 11
    ∧ BH1750.pyRound (53/5) 1 = 53/5
    ∧ (11 : ℚ) ≠ 53/5 := by
  refine ⟨?_, ?_, by norm_num⟩ <;>
    norm_num [BH1750.lightLevel, s1lit, BH1750.pyRound, BH1750.roundHalfEven,
      Int.floor_eq_iff]

/-- C5 (amended): `light_level` rounds the stored value to one decimal
exactly when the mode is one of the two 0.5-lx submodes
(`continuous_high_res_mode_2`, `one_time_high_res_mode_2`); all other
modes, the mode-1 high-resolution submodes included, round to zero
decimals. -/
theorem c5_rounding (m : BH1750.OpMode) (s : BH1750.State)
    (hr : s.highRes = (m.code &&& 0x03 == 0x01)) :
    BH1750.lightLevel s =
      BH1750.pyRound s.light
        (if m = .continuous_high_res_mode_2 ∨ m = .one_time_high_res_mode_2 then 1 else 0) := by
  cases m <;>
    first
    | (replace hr : s.highRes = false := hr.trans rfl
       simp [BH1750.lightLevel, hr])
    | (replace hr : s.highRes = true := hr.trans rfl
       simp [BH1750.lightLevel, hr])

/-- Witness for `c5_rounding` at `one_time_high_res_mode_2`. -/
theorem c5_rounding_witness :
    BH1750.lightLevel sWc4 =
      BH1750.pyRound sWc4.light
        (if BH1750.OpMode.one_time_high_res_mode_2 = BH1750.OpMode.continuous_high_res_mode_2
            ∨ BH1750.OpMode.one_time_high_res_mode_2 = BH1750.OpMode.one_time_high_res_mode_2
         then 1 else 0) :=
  c5_rounding .one_time_high_res_mode_2 sWc4 rfl

/-! ## C6 -/

/-- C6 (amended): per update, the reset + arm + wait path (power on,
reset, arm the configured mode, sleep
`(18ms if low-res else 128ms) * (mtreg/69) + delay`) is taken when the
driver is in a one-shot mode, or the STORED LIGHT LEVEL IS NEGATIVE
(initial value, or the previous read failed — not "has never taken a
valid sample"), or the armed mode differs from the configured one;
otherwise the update goes straight to the read.  The claim's scenario
holds: for continuous-high-res-1 at sensitivity 69, the constructor's
first update takes the full path and a second update with the mode
unchanged reads directly. -/
theorem c6_update_state_machine (b : BH1750.Bus) (s : BH1750.State) :
    ((s.cont = false ∨ s.light < 0 ∨ s.mode ≠ some s.opMode) →
      (BH1750.update b s).2 =
        [.write 0x01, .write 0x07, .write s.opMode, .slept (BH1750.waitTime s),
         .read (some s.opMode)] ++ (if s.cont then [] else [.write 0x00]))
    ∧ (s.cont = true → 0 ≤ s.light → s.mode = some s.opMode →
        (BH1750.update b s).2 = [.read (some s.opMode)])
    ∧ (BH1750.update busOK pre0).2 =
        [.write 0x01, .write 0x07, .write 0x10, .slept (BH1750.waitTime pre0),
         .read (some 0x10)]
    ∧ (BH1750.update busOK pre0).1 = s1lit
    ∧ (BH1750.update busOK s1lit).2 = [.read (some 0x10)] := by
  refine ⟨?_, ?_, rfl, ?_, ?_⟩
  · intro h
    simp only [BH1750.update]
    rw [if_pos h]
    cases hb : b.readWord <;> cases hc : s.cont <;>
      simp [BH1750.reset, BH1750.powerOn, BH1750.powerDown, BH1750.setMode,
        BH1750.getResult, BH1750.waitTime, hb, hc]
  · intro h1 h2 h3
    have hcond : ¬(s.cont = false ∨ s.light < 0 ∨ s.mode ≠ some s.opMode) := by
      push_neg
      exact ⟨by simp [h1], h2, h3⟩
    simp only [BH1750.update]
    rw [if_neg hcond]
    cases hb : b.readWord <;>
      simp [BH1750.getResult, hb, h3, h1, BH1750.powerDown, BH1750.setMode]
  · norm_num [BH1750.update, BH1750.reset, BH1750.powerOn, BH1750.powerDown,
      BH1750.setMode, BH1750.getResult, BH1750.waitTime, pre0, BH1750.initPre,
      BH1750.setSensitivity, BH1750.clampSens, busOK, s1lit,
      BH1750.OpMode.code, BH1750.OpMode.cont,
      show ((1000 : Nat) >>> 8 ||| (1000 &&& 255) <<< 8) = 59395 from rfl,
      show ((16 : Nat) &&& 3 == 1) = false from rfl,
      show ((16 : Nat) &&& 3 == 3) = false from rfl,
      show Int.toNat 69 = 69 from rfl]
  · norm_num [BH1750.update, BH1750.reset, BH1750.powerOn, BH1750.powerDown,
      BH1750.setMode, BH1750.getResult, busOK, s1lit]

/-- Witness for `c6_update_state_machine`: the full path on a fresh
driver, the skip path on an armed continuous driver with a stored
reading. -/
theorem c6_update_state_machine_witness :
    (BH1750.update busFail pre0).2 =
      [.write 0x01, .write 0x07, .write 0x10, .slept (BH1750.waitTime pre0),
       .read (some 0x10)]
    ∧ (BH1750.update busOK1 s1lit).2 = [.read (some 0x10)] := by
  constructor
  · exact (c6_update_state_machine busFail pre0).1
      (Or.inr (Or.inl (by norm_num [pre0, BH1750.initPre, BH1750.powerDown,
        BH1750.setMode, BH1750.setSensitivity, BH1750.powerOn, BH1750.clampSens])))
  · exact (c6_update_state_machine busOK1 s1lit).2.1 rfl (by norm_num [s1lit]) rfl

/-- C6 counterexample: the claim's reset condition reads "has never taken
a valid sample".  Run the scenario driver one step further: after a
successful update (a valid sample, light level `296975/6 ≥ 0`) and then
an update whose read failed, the driver is continuous, has taken a valid
sample in the past, and its armed mode equals the configured one — yet
the next update takes the reset path (its first transport event is the
power-on write), not the claimed skip path. -/
theorem c6_reset_despite_past_valid_sample :
    (BH1750.update busOK pre0).1 = s1lit
    ∧ 0 ≤ s1lit.light
    ∧ (BH1750.update busFail s1lit).1 = s2lit
    ∧ s2lit.cont = true
    ∧ s2lit.mode = some s2lit.opMode
    ∧ ((BH1750.update busOK s2lit).2).head? = some (.write 0x01) := by
  refine ⟨?_, by norm_num [s1lit], ?_, rfl, rfl, ?_⟩
  · norm_num [BH1750.update, BH1750.reset, BH1750.powerOn, BH1750.powerDown,
      BH1750.setMode, BH1750.getResult, BH1750.waitTime, pre0, BH1750.initPre,
      BH1750.setSensitivity, BH1750.clampSens, busOK, s1lit,
      BH1750.OpMode.code, BH1750.OpMode.cont,
      show ((1000 : Nat) >>> 8 ||| (1000 &&& 255) <<< 8) = 59395 from rfl,
      show ((16 : Nat) &&& 3 == 1) = false from rfl,
      show ((16 : Nat) &&& 3 == 3) = false from rfl,
      show Int.toNat 69 = 69 from rfl]
  · norm_num [BH1750.update, BH1750.reset, BH1750.powerOn, BH1750.powerDown,
      BH1750.setMode, BH1750.getResult, busFail, s1lit, s2lit]
  · norm_num [BH1750.update, BH1750.reset, BH1750.powerOn, BH1750.powerDown,
      BH1750.setMode, BH1750.getResult, busOK, s1lit, s2lit]

/-! ## C10 -/

/-- C10: after an update whose bus read fails the stored light level is
-1; a negative stored light level forces the full reset path even in a
continuous mode with the armed mode unchanged; the skip path is only
taken when the driver is continuous, the stored light level is
non-negative (which a successful read always produces) and the armed
mode equals the configured one; and any update with a successful read
stores a non-negative value. -/
theorem c10_read_failure_invariants (b : BH1750.Bus) (s : BH1750.State) :
    (b.readWord = none → (BH1750.update b s).1.light = -1)
    ∧ (s.light < 0 →
        (BH1750.update b s).2 =
          [.write 0x01, .write 0x07, .write s.opMode, .slept (BH1750.waitTime s),
           .read (some s.opMode)] ++ (if s.cont then [] else [.write 0x00]))
    ∧ ((BH1750.update b s).2 = [.read s.mode] →
        s.cont = true ∧ 0 ≤ s.light ∧ s.mode = some s.opMode)
    ∧ (∀ w, b.readWord = some w → 0 ≤ (BH1750.update b s).1.light) := by
  refine ⟨?_, ?_, ?_, ?_⟩
  · intro hb
    by_cases hcond : (s.cont = false ∨ s.light < 0 ∨ s.mode ≠ some s.opMode) <;>
      [(simp only [BH1750.update]; rw [if_pos hcond]);
       (simp only [BH1750.update]; rw [if_neg hcond])] <;>
      cases hc : s.cont <;>
        simp [BH1750.reset, BH1750.powerOn, BH1750.powerDown,
          BH1750.setMode, BH1750.getResult, hb, hc]
  · intro hl
    simp only [BH1750.update]
    rw [if_pos (Or.inr (Or.inl hl))]
    cases hb : b.readWord <;> cases hc : s.cont <;>
      simp [BH1750.reset, BH1750.powerOn, BH1750.powerDown, BH1750.setMode,
        BH1750.getResult, BH1750.waitTime, hb, hc]
  · intro htr
    by_cases hcond : (s.cont = false ∨ s.light < 0 ∨ s.mode ≠ some s.opMode)
    · exfalso
      revert htr
      simp only [BH1750.update]
      rw [if_pos hcond]
      cases hb : b.readWord <;> cases hc : s.cont <;>
        simp [BH1750.reset, BH1750.powerOn, BH1750.powerDown,
          BH1750.setMode, BH1750.getResult, hb, hc]
    · push_neg at hcond
      exact ⟨by simpa using hcond.1, hcond.2.1, hcond.2.2⟩
  · intro w hb
    have hnn : (0 : ℚ) ≤
        1 / ((1.2 : ℚ) * ((s.mtreg : ℚ) / (69.0 : ℚ)) * (if s.highRes then 2 else 1))
          * ((w >>> 8 ||| (w &&& 0xff) <<< 8 : Nat) : ℚ) := by
      have h1 : (0 : ℚ) ≤
          (1.2 : ℚ) * ((s.mtreg : ℚ) / (69.0 : ℚ)) * (if s.highRes then 2 else 1) := by
        have : (0 : ℚ) ≤ (if s.highRes then (2 : ℚ) else 1) := by split <;> norm_num
        positivity
      have h2 : (0 : ℚ) ≤ ((w >>> 8 ||| (w &&& 0xff) <<< 8 : Nat) : ℚ) := by positivity
      exact mul_nonneg (by positivity) h2
    by_cases hcond : (s.cont = false ∨ s.light < 0 ∨ s.mode ≠ some s.opMode) <;>
      [(simp only [BH1750.update]; rw [if_pos hcond]);
       (simp only [BH1750.update]; rw [if_neg hcond])] <;>
      cases hc : s.cont <;>
        simpa [BH1750.reset, BH1750.powerOn, BH1750.powerDown,
          BH1750.setMode, BH1750.getResult, hb, hc] using hnn

/-- Witness for `c10_read_failure_invariants` on the scenario states. -/
theorem c10_read_failure_invariants_witness :
    (BH1750.update busFail s1lit).1.light = -1
    ∧ (BH1750.update busOK s2lit).2 =
        [.write 0x01, .write 0x07, .write 0x10, .slept (BH1750.waitTime s2lit),
         .read (some 0x10)]
    ∧ (s1lit.cont = true ∧ 0 ≤ s1lit.light ∧ s1lit.mode = some s1lit.opMode)
    ∧ 0 ≤ (BH1750.update busOK s1lit).1.light := by
  refine ⟨(c10_read_failure_invariants busFail s1lit).1 rfl, ?_, ?_,
    (c10_read_failure_invariants busOK s1lit).2.2.2 1000 rfl⟩
  · exact (c10_read_failure_invariants busOK s2lit).2.1 (by norm_num [s2lit, s1lit])
  · exact (c10_read_failure_invariants busOK s1lit).2.2.1
      (by norm_num [BH1750.update, BH1750.reset, BH1750.powerOn, BH1750.powerDown,
        BH1750.setMode, BH1750.getResult, busOK, s1lit])

/-! ## C8 -/

/-- An HTU21D driver state holding a previous good sample. -/
def sHTU : HTU21D.State := { ok := true, temperature := 20, humidity := 50 }

/-- C8: a failed temperature CRC invalidates the whole update and leaves
the temperature at the sentinel; a failed humidity CRC (with the
temperature CRC passing) still stores the computed temperature but
clears validity and resets humidity to the sentinel; a transport failure
clears validity; and `sample_ok` is the conjunction of the validity flag
with the sentinel thresholds `temperature > -100` and `humidity > -1`. -/
theorem c8_crc_failure_handling (s : HTU21D.State) (buf_t buf_h : List Nat) :
    (HTU21D.crc8check buf_t = false →
      HTU21D.update s (some (buf_t, buf_h)) = { s with temperature := -255, ok := false })
    ∧ (HTU21D.crc8check buf_t = true → HTU21D.crc8check buf_h = false →
      HTU21D.update s (some (buf_t, buf_h)) =
        { s with
            temperature :=
              HTU21D.calcTemp (((buf_t.getD 0 0) <<< 8 ||| buf_t.getD 1 0) &&& 0xFFFC),
            humidity := -255, ok := false })
    ∧ (HTU21D.update s none = { s with ok := false })
    ∧ (HTU21D.sampleOk s = true ↔
        (s.ok = true ∧ s.temperature > -100 ∧ s.humidity > -1)) := by
  refine ⟨?_, ?_, rfl, ?_⟩
  · intro ht
    simp [HTU21D.update, ht]
  · intro ht hh
    simp [HTU21D.update, ht, hh]
  · simp [HTU21D.sampleOk, Bool.and_eq_true, decide_eq_true_eq, and_assoc]

/-- Witness for `c8_crc_failure_handling`: `[0x7C, 0xF1, 0x3C]` is a
block that passes the CRC, `[0, 0, 1]` one that fails it. -/
theorem c8_crc_failure_handling_witness :
    HTU21D.update sHTU (some ([0, 0, 1], [0x7C, 0xF1, 0x3C])) =
      { sHTU with temperature := -255, ok := false }
    ∧ HTU21D.update sHTU (some ([0x7C, 0xF1, 0x3C], [0, 0, 1])) =
      { sHTU with
          temperature :=
            HTU21D.calcTemp ((((([0x7C, 0xF1, 0x3C] : List Nat).getD 0 0)) <<< 8
              ||| ([0x7C, 0xF1, 0x3C] : List Nat).getD 1 0) &&& 0xFFFC),
          humidity := -255, ok := false } :=
  ⟨(c8_crc_failure_handling sHTU [0, 0, 1] [0x7C, 0xF1, 0x3C]).1 (by decide),
   (c8_crc_failure_handling sHTU [0x7C, 0xF1, 0x3C] [0, 0, 1]).2.1 (by decide) (by decide)⟩

/-! ## C9 -/

namespace BME280

/-- The driver state carried by either outcome of the `try` block. -/
def resState : Except (PyErr × State) (State × List Nat) → State
  | .error (_, st) => st
  | .ok (st, _) => st

/-- The driver state carried by either outcome of `takeForced`. -/
def resStateF : Except (PyErr × State) State → State
  | .error (_, st) => st
  | .ok st => st

lemma takeForced_state (b : Bus) (s : State) : resStateF (takeForced b s) = s := by
  unfold takeForced
  repeat' split
  all_goals rfl

lemma populateCal_temperature (b : Bus) (s : State) :
    (populateCal b s).temperature = s.temperature := by
  unfold populateCal
  cases readCalBytes b <;> simp

lemma populateCal_humidity (b : Bus) (s : State) :
    (populateCal b s).humidity = s.humidity := by
  unfold populateCal
  cases readCalBytes b <;> simp

lemma populateCal_pressure (b : Bus) (s : State) :
    (populateCal b s).pressure = s.pressure := by
  unfold populateCal
  cases readCalBytes b <;> simp

lemma tryTail_state (b : Bus) (s1 : State) : resState (tryTail b s1) = s1 := by
  have hst := takeForced_state b s1
  unfold tryTail
  by_cases hm : s1.mode = 2
  · simp only [hm, if_true, Bind.bind, Except.bind]
    cases htf : takeForced b s1 with
    | error e =>
      obtain ⟨pe, st⟩ := e
      rw [htf] at hst
      simp only [resStateF] at hst
      simp [resState, hst]
    | ok st =>
      rw [htf] at hst
      simp only [resStateF] at hst
      cases hraw : readRaw b <;> simp [resState, hst, pure, Except.pure]
  · simp only [hm, if_false, Bind.bind, Except.bind]
    cases hraw : readRaw b <;> simp [resState, pure, Except.pure]

/-- The `try` block never writes the stored temperature, humidity or
pressure, whether it completes or is aborted by a bus failure. -/
lemma tryBody_fields (b : Bus) (s : State) (first : Bool) :
    (resState (tryBody b s first)).temperature = s.temperature
    ∧ (resState (tryBody b s first)).humidity = s.humidity
    ∧ (resState (tryBody b s first)).pressure = s.pressure := by
  unfold tryBody
  by_cases hcfg : (first || !s.ok) = true <;>
    simp only [hcfg, if_true, if_false, Bool.false_eq_true, Bind.bind, Except.bind]
  · by_cases hw1 : b.writeOk 0xF2 s.ctrlHumReg <;>
      by_cases hw2 : b.writeOk 0xF5 s.configReg <;>
        by_cases hw3 : b.writeOk 0xF4 s.ctrlMeasReg <;>
          simp only [hw1, hw2, hw3, if_true, if_false, Bool.false_eq_true] <;>
          refine ⟨?_, ?_, ?_⟩ <;>
            first
            | (rw [tryTail_state]
               simp [populateCal_temperature, populateCal_humidity,
                 populateCal_pressure])
            | simp [resState]
  · refine ⟨?_, ?_, ?_⟩ <;> rw [tryTail_state]

/-- Temperature compensation mutates only `tempFine`. -/
lemma compT_fields (s : State) (adc_t : Nat) (t : ℚ) (s2 : State)
    (h : compT s adc_t = .ok (t, s2)) :
    s2.temperature = s.temperature ∧ s2.humidity = s.humidity
      ∧ s2.pressure = s.pressure ∧ s2.withHumidity = s.withHumidity
      ∧ s2.withPressure = s.withPressure := by
  unfold compT calGet at h
  simp only [Bind.bind, Except.bind] at h
  repeat' split at h
  all_goals simp_all [pure, Except.pure]
  all_goals (obtain ⟨h1, h2⟩ := h; subst h2; simp)

lemma tempStep_fields (s : State) (t : ℚ) :
    ((tempStep s t).temperature = s.temperature ∨
      ((tempStep s t).temperature = some t ∧ -20 ≤ t ∧ t < 80))
    ∧ (tempStep s t).humidity = s.humidity
    ∧ (tempStep s t).pressure = s.pressure
    ∧ (tempStep s t).withHumidity = s.withHumidity
    ∧ (tempStep s t).withPressure = s.withPressure := by
  unfold tempStep
  split <;> simp_all

lemma humStep_fields (s : State) (hm : ℚ) :
    ((humStep s hm).humidity = s.humidity ∨
      ((humStep s hm).humidity = some hm ∧ 0 ≤ hm ∧ hm ≤ 100))
    ∧ (humStep s hm).temperature = s.temperature
    ∧ (humStep s hm).pressure = s.pressure
    ∧ (humStep s hm).withPressure = s.withPressure := by
  unfold humStep
  split <;> simp_all

lemma presStep_fields (s : State) (p : ℚ) :
    ((presStep s p).pressure = s.pressure ∨
      ((presStep s p).pressure = some p ∧ 100 < p))
    ∧ (presStep s p).temperature = s.temperature
    ∧ (presStep s p).humidity = s.humidity := by
  unfold presStep
  split <;> simp_all

/-- After the measurement phase each stored channel value is either
untouched or holds the in-range compensated value of this cycle. -/
lemma applyMeasurements_fields (s : State) (data : List Nat) (s2 : State)
    (h : applyMeasurements s data = .ok s2) :
    (s2.temperature = s.temperature ∨ ∃ t, s2.temperature = some t ∧ -20 ≤ t ∧ t < 80)
    ∧ (s2.humidity = s.humidity ∨ ∃ hm, s2.humidity = some hm ∧ 0 ≤ hm ∧ hm ≤ 100)
    ∧ (s2.pressure = s.pressure ∨ ∃ p, s2.pressure = some p ∧ 100 < p) := by
  unfold applyMeasurements at h
  simp only [Bind.bind, Except.bind] at h
  have presStage : ∀ sB : State,
      (if sB.withPressure = true then
          Except.map (presStep sB)
            (compP sB ((data.getD 0 0) <<< 12 ||| (data.getD 1 0) <<< 4 ||| (data.getD 2 0) >>> 4))
        else Except.ok sB) = .ok s2 →
      s2.temperature = sB.temperature ∧ s2.humidity = sB.humidity ∧
        (s2.pressure = sB.pressure ∨ ∃ p, s2.pressure = some p ∧ 100 < p) := by
    intro sB hPS
    by_cases hWP : sB.withPressure = true
    · rw [if_pos hWP] at hPS
      cases hcp : compP sB ((data.getD 0 0) <<< 12 ||| (data.getD 1 0) <<< 4 ||| (data.getD 2 0) >>> 4) with
      | error e3 =>
        rw [hcp] at hPS
        simp [Except.map] at hPS
      | ok pv =>
        rw [hcp] at hPS
        simp only [Except.map, Except.ok.injEq] at hPS
        obtain ⟨hp1, hp2, hp3⟩ := presStep_fields sB pv
        subst hPS
        refine ⟨hp2, hp3, ?_⟩
        rcases hp1 with h1 | ⟨h1, h2⟩
        · exact Or.inl h1
        · exact Or.inr ⟨pv, h1, h2⟩
    · rw [if_neg hWP] at hPS
      simp only [Except.ok.injEq] at hPS
      subst hPS
      exact ⟨rfl, rfl, Or.inl rfl⟩
  cases hct : compT { s with ok := false }
      ((data.getD 3 0) <<< 12 ||| (data.getD 4 0) <<< 4 ||| (data.getD 5 0) >>> 4) with
  | error e =>
    rw [hct] at h
    simp at h
  | ok v =>
    obtain ⟨t, sT⟩ := v
    rw [hct] at h
    simp only [] at h
    obtain ⟨hT1, hT2, hT3, hT4, hT5⟩ := compT_fields _ _ _ _ hct
    simp only at hT1 hT2 hT3 hT4 hT5
    obtain ⟨hA1, hA2, hA3, hA4, hA5⟩ := tempStep_fields sT t
    by_cases hWH : (tempStep sT t).withHumidity = true
    · rw [if_pos hWH] at h
      cases hch : compH (tempStep sT t) ((data.getD 6 0) <<< 8 ||| data.getD 7 0) with
      | error e2 =>
        rw [hch] at h
        simp [Except.map] at h
      | ok hv =>
        rw [hch] at h
        simp only [Except.map] at h
        obtain ⟨hB1, hB2, hB3, hB4⟩ := humStep_fields (tempStep sT t) hv
        obtain ⟨hc1, hc2, hc3⟩ := presStage _ h
        refine ⟨?_, ?_, ?_⟩
        · rw [hc1, hB2]
          rcases hA1 with h1 | ⟨h1, h2, h3⟩
          · exact Or.inl (by rw [h1, hT1])
          · exact Or.inr ⟨t, h1, h2, h3⟩
        · rw [hc2]
          rcases hB1 with h1 | ⟨h1, h2, h3⟩
          · exact Or.inl (by rw [h1, hA2, hT2])
          · exact Or.inr ⟨hv, h1, h2, h3⟩
        · rcases hc3 with h1 | h1
          · exact Or.inl (by rw [h1, hB3, hA3, hT3])
          · exact Or.inr h1
    · rw [if_neg hWH] at h
      obtain ⟨hc1, hc2, hc3⟩ := presStage _ h
      refine ⟨?_, ?_, ?_⟩
      · rw [hc1]
        rcases hA1 with h1 | ⟨h1, h2, h3⟩
        · exact Or.inl (by rw [h1, hT1])
        · exact Or.inr ⟨t, h1, h2, h3⟩
      · rw [hc2, hA2, hT2]
        exact Or.inl rfl
      · rcases hc3 with h1 | h1
        · exact Or.inl (by rw [h1, hA3, hT3])
        · exact Or.inr h1

end BME280

/-- C9: whenever `BME280.update` returns normally, each stored channel
value is either exactly the value stored before the call (the accessor
keeps returning the last accepted value, or `None` if none was ever
accepted) or a freshly accepted in-range value: `[-20, 80)` for
temperature, `[0, 100]` for humidity, `(100, ∞)` for pressure.  An
out-of-range compensated value is never written; only the validity flag
changes. -/
theorem c9_out_of_range_never_stored (s : BME280.State) (b : BME280.Bus)
    (first : Bool) (s2 : BME280.State) (h : BME280.update s b first = .ok s2) :
    (s2.temperature = s.temperature ∨ ∃ t, s2.temperature = some t ∧ -20 ≤ t ∧ t < 80)
    ∧ (s2.humidity = s.humidity ∨ ∃ hm, s2.humidity = some hm ∧ 0 ≤ hm ∧ hm ≤ 100)
    ∧ (s2.pressure = s.pressure ∨ ∃ p, s2.pressure = some p ∧ 100 < p) := by
  unfold BME280.update at h
  have hf := BME280.tryBody_fields b s first
  cases ht : BME280.tryBody b s first with
  | error e =>
    obtain ⟨pe, st⟩ := e
    rw [ht] at h hf
    simp only [BME280.resState] at hf
    cases pe <;> simp only [] at h
    case os =>
      simp only [Except.ok.injEq] at h
      subst h
      simp [hf.1, hf.2.1, hf.2.2]
    all_goals exact absurd h (by simp)
  | ok pr =>
    obtain ⟨s1, data⟩ := pr
    rw [ht] at h hf
    simp only [BME280.resState] at hf
    simp only [] at h
    obtain ⟨h1, h2, h3⟩ := BME280.applyMeasurements_fields s1 data s2 h
    rw [hf.1] at h1
    rw [hf.2.1] at h2
    rw [hf.2.2] at h3
    exact ⟨h1, h2, h3⟩

/-- A bus whose reads all return zero. -/
def busC9 : BME280.Bus := { writeOk := fun _ _ => true, readByte := fun _ => some 0 }

/-- A temperature-only driver state whose calibration makes the
compensated temperature of an all-zero raw read exactly 0. -/
def s0C9 : BME280.State := { s0C3 with calT := some [0, 0, 0] }

/-- The state `BME280.update s0C9 busC9 false` produces. -/
def s2C9 : BME280.State :=
  { s0C9 with tempFine := some 0, ok := true, temperature := some 0 }

/-- Witness for `c9_out_of_range_never_stored` on a concrete update. -/
theorem c9_out_of_range_never_stored_witness :
    (s2C9.temperature = s0C9.temperature
      ∨ ∃ t, s2C9.temperature = some t ∧ -20 ≤ t ∧ t < 80)
    ∧ (s2C9.humidity = s0C9.humidity
      ∨ ∃ hm, s2C9.humidity = some hm ∧ 0 ≤ hm ∧ hm ≤ 100)
    ∧ (s2C9.pressure = s0C9.pressure
      ∨ ∃ p, s2C9.pressure = some p ∧ 100 < p) :=
  c9_out_of_range_never_stored s0C9 busC9 false s2C9 (by
    have h1 : BME280.tryBody busC9 s0C9 false = .ok (s0C9, [0, 0, 0, 0, 0, 0, 0, 0]) := rfl
    unfold BME280.update
    rw [h1]
    norm_num [BME280.applyMeasurements, BME280.compT, BME280.calGet, BME280.tempStep,
      Bind.bind, Except.bind, pure, Except.pure, Except.map, s0C9, s0C3, s2C9,
      Nat.shiftLeft_eq])


/-! ## C7 -/

namespace HTU21D

lemma and_bit_iff (x j : Nat) : x &&& (1 <<< j) ≠ 0 ↔ x.testBit j = true := by
  rw [Nat.one_shiftLeft, Nat.and_two_pow]
  cases h : x.testBit j <;> simp [h]

lemma xor_xor_both (x y d : Nat) : (x ^^^ d) ^^^ (y ^^^ d) = x ^^^ y := by
  rw [Nat.xor_assoc, Nat.xor_comm d (y ^^^ d), Nat.xor_assoc, Nat.xor_self,
    Nat.xor_zero]

lemma xor_left_comm (a b c : Nat) : a ^^^ (b ^^^ c) = b ^^^ (a ^^^ c) := by
  rw [← Nat.xor_assoc, Nat.xor_comm a b, Nat.xor_assoc]

lemma xor_cancel_left (a b : Nat) : a ^^^ (a ^^^ b) = b := by
  rw [← Nat.xor_assoc, Nat.xor_self, Nat.zero_xor]

lemma crcLoop_zero (n : Nat) : ∀ d, crcLoop n 0 d = 0 := by
  induction n with
  | zero => intro d; rfl
  | succ m ih =>
    intro d
    simp only [crcLoop, Nat.zero_and, ne_eq, not_true_eq_false, if_false]
    simpa using ih (d >>> 1)

lemma crcLoop_xor (n : Nat) : ∀ d x y,
    crcLoop n (x ^^^ y) d = crcLoop n x d ^^^ crcLoop n y d := by
  induction n with
  | zero => intro d x y; rfl
  | succ m ih =>
    intro d x y
    simp only [crcLoop]
    rw [← ih]
    congr 1
    simp only [eq_iff_iff] at *
    by_cases hx : x.testBit (8 + m) <;> by_cases hy : y.testBit (8 + m) <;>
      simp only [if_pos, if_neg, (and_bit_iff _ _), Nat.testBit_xor, hx, hy,
        Bool.xor_false, Bool.xor_true, Bool.not_true, Bool.false_xor,
        Bool.true_xor] <;>
      simp [xor_xor_both, Nat.xor_assoc, Nat.xor_comm, xor_left_comm,
        xor_cancel_left]


lemma crcLoop_eq_spec (n : Nat) : ∀ r,
    crcLoop n r (0x131 <<< (n - 1)) = specPolyRem n r := by
  induction n with
  | zero => intro r; rfl
  | succ m ih =>
    intro r
    simp only [crcLoop, specPolyRem, Nat.succ_sub_one]
    have hcont : ∀ r2, crcLoop m r2 ((0x131 <<< m) >>> 1) = specPolyRem m r2 := by
      cases m with
      | zero => intro r2; rfl
      | succ m2 =>
        have hdiv : ((0x131 : Nat) <<< (m2 + 1)) >>> 1 = 0x131 <<< (m2 + 1 - 1) := by
          simp only [Nat.succ_sub_one, Nat.shiftLeft_eq, Nat.shiftRight_succ,
            Nat.shiftRight_zero, pow_succ, ← Nat.mul_assoc]
          exact Nat.mul_div_cancel _ (by norm_num)
        intro r2
        rw [hdiv]
        exact ih r2
    by_cases hb : r.testBit (8 + m)
    · rw [if_pos ((and_bit_iff r (8 + m)).mpr hb), if_pos hb]
      exact hcont _
    · rw [if_neg (by simpa [and_bit_iff] using hb), if_neg hb]
      exact hcont _

lemma crc_pow_ne_zero : ∀ k, k < 24 → crcLoop 16 (2 ^ k) 0x988000 ≠ 0 := by decide

end HTU21D


namespace HTU21D

lemma blockValue_testBit (b0 b1 b2 : Nat) (h1 : b1 < 256) (h2 : b2 < 256) (i : Nat) :
    (blockValue [b0, b1, b2]).testBit i =
      (if i < 8 then b2.testBit i
       else if i < 16 then b1.testBit (i - 8)
       else b0.testBit (i - 16)) := by
  have hud : blockValue [b0, b1, b2] = ((2 ^ 8 * b0 + b1) <<< 8) ||| b2 := by
    simp [blockValue, Nat.shiftLeft_eq, Nat.mul_comm]
  rw [hud, Nat.testBit_or, Nat.testBit_shiftLeft]
  rcases Nat.lt_or_ge i 8 with h8 | h8
  · have : ¬(8 ≤ i) := by omega
    simp [this, h8]
  · have hpow : (2 : Nat) ^ 8 ≤ 2 ^ i := Nat.pow_le_pow_right (by norm_num) h8
    have hb2 : b2.testBit i = false := Nat.testBit_lt_two_pow (by omega)
    rw [Nat.testBit_mul_pow_two_add _ (show b1 < 2 ^ 8 by norm_num [h1])]
    rcases Nat.lt_or_ge i 16 with h16 | h16
    · have hi8 : i - 8 < 8 := by omega
      simp [h8, hb2, hi8, show ¬(i < 8) from by omega, h16]
    · have hi8 : ¬(i - 8 < 8) := by omega
      simp [h8, hb2, hi8, show ¬(i < 8) from by omega,
        show ¬(i < 16) from by omega, show i - 8 - 8 = i - 16 from by omega]

lemma blockValue_flip (b0 b1 b2 k : Nat) (h0 : b0 < 256) (h1 : b1 < 256)
    (h2 : b2 < 256) (hk : k < 24) :
    blockValue (flipBlock b0 b1 b2 k) = blockValue [b0, b1, b2] ^^^ 2 ^ k := by
  unfold flipBlock
  by_cases hk8 : k < 8
  · rw [if_pos hk8]
    have h2f : b2 ^^^ 2 ^ k < 256 := by
      have e2 : (2 : Nat) ^ k < 2 ^ 8 := Nat.pow_lt_pow_right (by norm_num) hk8
      have := Nat.xor_lt_two_pow (show b2 < 2 ^ 8 by norm_num [h2]) e2
      simpa using this
    apply Nat.eq_of_testBit_eq
    intro i
    rw [Nat.testBit_xor, blockValue_testBit _ _ _ h1 h2f,
      blockValue_testBit _ _ _ h1 h2, Nat.testBit_two_pow]
    by_cases hik : k = i
    · subst hik
      simp [hk8, Nat.testBit_xor, Nat.testBit_two_pow]
    · by_cases hi8 : i < 8
      · simp [hi8, hik, Nat.testBit_xor, Nat.testBit_two_pow]
      · by_cases hi16 : i < 16 <;> simp [hi8, hi16, hik]
  · rw [if_neg hk8]
    by_cases hk16 : k < 16
    · rw [if_pos hk16]
      have hkk : k - 8 < 8 := by omega
      have h1f : b1 ^^^ 2 ^ (k - 8) < 256 := by
        have e2 : (2 : Nat) ^ (k - 8) < 2 ^ 8 := Nat.pow_lt_pow_right (by norm_num) hkk
        have := Nat.xor_lt_two_pow (show b1 < 2 ^ 8 by norm_num [h1]) e2
        simpa using this
      apply Nat.eq_of_testBit_eq
      intro i
      rw [Nat.testBit_xor, blockValue_testBit _ _ _ h1f h2,
        blockValue_testBit _ _ _ h1 h2, Nat.testBit_two_pow]
      by_cases hik : k = i
      · subst hik
        simp [hk8, hk16, Nat.testBit_xor, Nat.testBit_two_pow]
      · by_cases hi8 : i < 8
        · simp [hi8, show k ≠ i from hik]
        · by_cases hi16 : i < 16
          · have hcmp : (k - 8 = i - 8) ↔ (k = i) := by omega
            simp [hi8, hi16, Nat.testBit_xor, Nat.testBit_two_pow, hcmp,
              show k ≠ i from hik]
          · simp [hi8, hi16, show k ≠ i from hik]
    · rw [if_neg hk16]
      have hkk : k - 16 < 8 := by omega
      have h0f : b0 ^^^ 2 ^ (k - 16) < 256 := by
        have e2 : (2 : Nat) ^ (k - 16) < 2 ^ 8 := Nat.pow_lt_pow_right (by norm_num) hkk
        have := Nat.xor_lt_two_pow (show b0 < 2 ^ 8 by norm_num [h0]) e2
        simpa using this
      apply Nat.eq_of_testBit_eq
      intro i
      rw [Nat.testBit_xor, blockValue_testBit _ _ _ h1 h2,
        blockValue_testBit _ _ _ h1 h2, Nat.testBit_two_pow]
      by_cases hik : k = i
      · subst hik
        simp [hk8, hk16, Nat.testBit_xor, Nat.testBit_two_pow]
      · by_cases hi8 : i < 8
        · simp [hi8, show k ≠ i from hik]
        · by_cases hi16 : i < 16
          · simp [hi8, hi16, show k ≠ i from hik]
          · have hcmp : (k - 16 = i - 16) ↔ (k = i) := by omega
            simp [hi8, hi16, Nat.testBit_xor, Nat.testBit_two_pow, hcmp,
              show k ≠ i from hik]

end HTU21D


/-- C7: the CRC check accepts a 3-byte block exactly when MSB-first
bit-serial division of the 24-bit value (two data bytes followed by the
CRC byte) by the polynomial `0x0131` leaves remainder zero, and for any
block that passes, flipping any single one of its 24 bits makes the
check fail.  The single-bit part follows from the GF(2)-linearity of the
division loop and the fact that no power `2^k` (k < 24) divides to
remainder zero. -/
theorem c7_crc_division_and_single_bit (b0 b1 b2 : Nat) (h0 : b0 < 256) (h1 : b1 < 256) (h2 : b2 < 256) :
    (HTU21D.crc8check [b0, b1, b2] = true ↔
      HTU21D.specPolyRem 16 (HTU21D.blockValue [b0, b1, b2]) = 0)
    ∧ (HTU21D.crc8check [b0, b1, b2] = true →
       ∀ k, k < 24 → HTU21D.crc8check (HTU21D.flipBlock b0 b1 b2 k) = false) := by
  have hspec : ∀ r, HTU21D.crcLoop 16 r 0x988000 = HTU21D.specPolyRem 16 r := by
    intro r
    have h := HTU21D.crcLoop_eq_spec 16 r
    norm_num at h
    exact h
  constructor
  · rw [HTU21D.crc8check, beq_iff_eq, hspec]
  · intro hpass k hk
    have hz : HTU21D.crcLoop 16 (HTU21D.blockValue [b0, b1, b2]) 0x988000 = 0 := by
      simpa [HTU21D.crc8check, beq_iff_eq] using hpass
    have hflip := HTU21D.blockValue_flip b0 b1 b2 k h0 h1 h2 hk
    have hlin := HTU21D.crcLoop_xor 16 0x988000 (HTU21D.blockValue [b0, b1, b2]) (2 ^ k)
    have hne := HTU21D.crc_pow_ne_zero k hk
    rw [HTU21D.crc8check, beq_eq_false_iff_ne]
    rw [hflip, hlin, hz, Nat.zero_xor]
    exact hne

/-- Witness for `c7_crc_division_and_single_bit` on the block
`[0x7C, 0xF1, 0x3C]` (which passes the CRC). -/
theorem c7_crc_division_and_single_bit_witness :
    (HTU21D.crc8check [0x7C, 0xF1, 0x3C] = true ↔
      HTU21D.specPolyRem 16 (HTU21D.blockValue [0x7C, 0xF1, 0x3C]) = 0)
    ∧ (HTU21D.crc8check [0x7C, 0xF1, 0x3C] = true →
       ∀ k, k < 24 → HTU21D.crc8check (HTU21D.flipBlock 0x7C 0xF1 0x3C k) = false) :=
  c7_crc_division_and_single_bit 0x7C 0xF1 0x3C (by decide) (by decide) (by decide)
